import Mathlib

/-!
Verification of the annotation-graph model and diff algorithm of the
whats-wrong visualizer: a shallow embedding of `nlp_model/edge.py` and
`nlp_model/nlp_instance.py` together with theorems about the edge
relation queries, edge equality and hashing, graph construction, and
the gold/guess diff.
-/

/-- Modelled from the spec: the file `nlp_model/token.py` is not part of
the sources available here; the spec describes a Token as an ordered
position (`index`), an open mapping of named string properties, and an
`is_actual` flag, with ordering and equality decided by `index` alone. -/
structure Token where
  index : Nat
  properties : List (String × String) := []
  is_actual : Bool := false
deriving DecidableEq, Repr

/-- Modelled from the spec: Token equality is by `index`. -/
def tokenEq (t u : Token) : Bool :=
  t.index == u.index

/-- Modelled from the spec: a Token hash consistent with index-equality
(Python's `hash` of the token; the spec fixes equality by index, so the
hash is a function of the index). -/
def tokenHash (t : Token) : Int :=
  (t.index : Int)

/-- The `EdgeRenderType` enum of `edge.py`: an edge is rendered as a
span or as a dependency. -/
inductive EdgeRenderType where
  | span
  | dependency
deriving DecidableEq, Repr

/-- The `Edge` class of `edge.py`: a labelled and typed pair of tokens.
`label` and `edge_type` are the strings passed by the callers modelled
here; `note`, `render_type` and `description` may be Python `None`,
modelled as `Option`. -/
structure Edge where
  start : Token
  end_ : Token
  label : String
  note : Option String := none
  edge_type : String
  render_type : Option EdgeRenderType := some EdgeRenderType.dependency
  description : Option String := some "No Description"
  is_final : Bool := true
deriving DecidableEq, Repr

/-- Source `Edge.get_min_index`: the minimal token index of the edge. -/
def Edge.minIndex (e : Edge) : Nat :=
  min e.start.index e.end_.index

/-- Source `Edge.get_max_index`: the maximal token index of the edge. -/
def Edge.maxIndex (e : Edge) : Nat :=
  max e.start.index e.end_.index

/-- Source `Edge.covers`: `self.get_min_index() < edge.get_min_index()
<= edge.get_max_index() < self.get_max_index()` (a Python chained
comparison, i.e. the conjunction of the three adjacent comparisons). -/
def Edge.covers (self edge : Edge) : Bool :=
  decide (self.minIndex < edge.minIndex) &&
    decide (edge.minIndex ≤ edge.maxIndex) &&
    decide (edge.maxIndex < self.maxIndex)

/-- Source `Edge.overlaps`: the disjunction of the two chained
comparisons `self.min <= edge.min <= self.max <= edge.max` and
`edge.min <= self.min <= self.max <= edge.min <= edge.max`. -/
def Edge.overlaps (self edge : Edge) : Bool :=
  (decide (self.minIndex ≤ edge.minIndex) &&
    decide (edge.minIndex ≤ self.maxIndex) &&
    decide (self.maxIndex ≤ edge.maxIndex)) ||
  (decide (edge.minIndex ≤ self.minIndex) &&
    decide (self.minIndex ≤ self.maxIndex) &&
    decide (self.maxIndex ≤ edge.minIndex) &&
    decide (edge.minIndex ≤ edge.maxIndex))

/-- Source `Edge.crosses`: `self.min < edge.min < self.max < edge.max`
or `edge.min < self.min < edge.max < self.max` (chained comparisons). -/
def Edge.crosses (self edge : Edge) : Bool :=
  (decide (self.minIndex < edge.minIndex) &&
    decide (edge.minIndex < self.maxIndex) &&
    decide (self.maxIndex < edge.maxIndex)) ||
  (decide (edge.minIndex < self.minIndex) &&
    decide (self.minIndex < edge.maxIndex) &&
    decide (edge.maxIndex < self.maxIndex))

/-- Source `Edge.__eq__`: two edges are equal when start token, end
token, label, type and note all agree; `description`, `render_type` and
`is_final` are ignored.  Token comparison is by index. -/
def edgeEq (a b : Edge) : Bool :=
  tokenEq a.start b.start && tokenEq a.end_ b.end_ &&
    a.label == b.label && a.edge_type == b.edge_type && a.note == b.note

/-- Source `Edge.__hash__`: the 31-ary accumulation of the hashes of
start, end, label, type and note, the `None` guard of the note modelled
by contributing 0.  The Python string hash is opaque, so it is a
parameter `hs`. -/
def edgeHash (hs : String → Int) (e : Edge) : Int :=
  ((((tokenHash e.start * 31 + tokenHash e.end_) * 31 + hs e.label) * 31 +
      hs e.edge_type) * 31) +
    (match e.note with
     | some n => hs n
     | none => 0)

/-- The identity key of an edge under `edgeEq`: the five compared
components, tokens reduced to their indices. -/
def edgeKey (e : Edge) : Nat × Nat × String × String × Option String :=
  (e.start.index, e.end_.index, e.label, e.edge_type, e.note)

/-- Insertion into a Python set: the new element is discarded when an
equal (under `edgeEq`) element is already present, otherwise added. -/
def pySetInsert (s : List Edge) (e : Edge) : List Edge :=
  if s.any (fun x => edgeEq x e) then s else s ++ [e]

/-- Python frozenset construction over a list of edges: keep the first
occurrence of every `edgeEq`-class, drop later duplicates. -/
def pyDedup : List Edge → List Edge
  | [] => []
  | e :: es => e :: (pyDedup es).filter fun x => !edgeEq e x

/-- The `RenderType` enum of `nlp_instance.py`: a single sentence or
two aligned sentences. -/
inductive RenderType where
  | single
  | alignment
deriving DecidableEq, Repr

/-- The `NLPInstance` class of `nlp_instance.py`: token sequence, edge
list, render type, index-to-token map and split points.  The Python
dict `token_map` is modelled as a function from indices to optional
tokens. -/
structure NLPInstance where
  tokens : List Token := []
  token_map : Nat → Option Token := fun _ => none
  edges : List Edge := []
  render_type : RenderType := RenderType.single
  split_points : List Nat := []

/-- Registering a list of tokens in a token map, later tokens
overriding earlier ones at the same index (Python dict assignment
`token_map[t.index] = t` in a loop). -/
def tokenMapAdd (m : Nat → Option Token) (ts : List Token) : Nat → Option Token :=
  ts.foldl (fun acc t => fun k => if k = t.index then some t else acc k) m

/-- Source `NLPInstance.__init__`: starts from empty containers and
extends them with the given tokens (also registered in the map),
edges and split points. -/
def NLPInstance.init (tokens : List Token) (edges : List Edge)
    (render_type : RenderType) (split_points : List Nat) : NLPInstance :=
  { tokens := tokens
    token_map := tokenMapAdd (fun _ => none) tokens
    edges := edges
    render_type := render_type
    split_points := split_points }

/-- Source `NLPInstance.is_valid_edge`: both positions are keys of the
token map. -/
def NLPInstance.is_valid_edge (inst : NLPInstance) (start end_ : Nat) : Bool :=
  (inst.token_map start).isSome && (inst.token_map end_).isSome

/-- Source `NLPInstance.add_edge`: when `is_valid_edge` holds the two
dict lookups succeed and the fully-constructed edge is appended to
`edges`; otherwise a `KeyError` is raised.  The guard and the lookups
are combined into one match: the `(some, some)` branch is exactly the
`is_valid_edge` branch of the source. -/
def NLPInstance.add_edge (inst : NLPInstance) (start end_ : Nat) (label : String)
    (edge_type : String) (render_type : Option EdgeRenderType)
    (desc : Option String) (note : Option String) (is_final : Bool) :
    Except String NLPInstance :=
  match inst.token_map start, inst.token_map end_ with
  | some s, some e =>
      Except.ok { inst with
        edges := inst.edges ++
          [{ start := s, end_ := e, label := label, note := note,
             edge_type := edge_type, render_type := render_type,
             description := desc, is_final := is_final }] }
  | _, _ =>
      Except.error ("Could not add edge: no token at positions " ++
        toString start ++ " and " ++ toString end_ ++ ".")

/-- Source `NLPInstance.add_tokens`: extend the token list and register
every new token in the map. -/
def NLPInstance.add_tokens (inst : NLPInstance) (ts : List Token) : NLPInstance :=
  { inst with
    tokens := inst.tokens ++ ts
    token_map := tokenMapAdd inst.token_map ts }

/-- Source `NLPInstance.add_token`: with no index a fresh token is
appended at position `len(tokens)` and registered; with an explicit
index the source evaluates `self.token_map[index]`, which raises
`KeyError` when the index is absent — the subsequent
`if vertex is None` branch that would create a token is unreachable,
because a Python dict subscript raises instead of returning `None`. -/
def NLPInstance.add_token (inst : NLPInstance) (index : Option Nat)
    (is_actual : Bool) : Except String (Token × NLPInstance) :=
  match index with
  | none =>
      let vertex : Token := { index := inst.tokens.length, is_actual := is_actual }
      Except.ok (vertex, { inst with
        tokens := inst.tokens ++ [vertex]
        token_map := fun k => if k = vertex.index then some vertex else inst.token_map k })
  | some i =>
      match inst.token_map i with
      | some vertex => Except.ok (vertex, inst)
      | none => Except.error ("KeyError: " ++ toString i)

/-- Source `NLPInstance.merge`: the property-merging loop evaluates
`nlp.tokens(i)` — calling the list attribute `tokens` as a function —
which raises `TypeError` on its first iteration (taken when both token
sequences are nonempty); when the loop body never runs, the edge loop
header evaluates `nlp.edges()` — again calling a list — and raises
`TypeError` as well.  Either way the call fails. -/
def NLPInstance.merge (inst nlp : NLPInstance) : Except String NLPInstance :=
  if 0 < min inst.tokens.length nlp.tokens.length then
    Except.error "TypeError: list object is not callable"
  else
    Except.error "TypeError: list object is not callable"

/-- Source `NLPInstance.get_edges`: the frozenset of the edges whose
render type equals the given one, or all edges when the argument is
`None`. -/
def NLPInstance.get_edges (inst : NLPInstance) (render_type : Option EdgeRenderType) :
    List Edge :=
  pyDedup (inst.edges.filter fun e => e.render_type == render_type || render_type.isNone)

/-- Source `nlp_diff`, set `fn = goldIdentities - guessIdentities`: the
gold edges with no `edgeEq`-equal guess edge. -/
def diffFN (gold guess : NLPInstance) : List Edge :=
  (gold.get_edges none).filter fun e => !((guess.get_edges none).any (edgeEq e))

/-- Source `nlp_diff`, set `fp = guessIdentities - goldIdentities`: the
guess edges with no `edgeEq`-equal gold edge. -/
def diffFP (gold guess : NLPInstance) : List Edge :=
  (guess.get_edges none).filter fun e => !((gold.get_edges none).any (edgeEq e))

/-- Source `nlp_diff`, set `matches = goldIdentities & guessIdentities`:
the gold edges with an `edgeEq`-equal guess edge (representatives taken
from the gold side). -/
def diffMatches (gold guess : NLPInstance) : List Edge :=
  (gold.get_edges none).filter fun e => (guess.get_edges none).any (edgeEq e)

/-- One of the three re-adding loops of `nlp_diff`: every edge of the
given list is re-added to the instance via `add_edge`, its type
suffixed, label, note, description and render type passed through, and
`is_final` left at its default `True`. -/
def addDiffEdges (inst : NLPInstance) (es : List Edge) (suffix : String) :
    Except String NLPInstance :=
  es.foldlM
    (fun acc e =>
      acc.add_edge e.start.index e.end_.index e.label (e.edge_type ++ suffix)
        e.render_type e.description e.note true)
    inst

/-- Source `nlp_diff`: a fresh instance carrying gold's render type,
split points and tokens, to which the re-typed FN, FP and Match edges
are added in that order. -/
def nlp_diff (gold_instance guess_instance : NLPInstance) : Except String NLPInstance := do
  let diff := NLPInstance.init [] [] gold_instance.render_type gold_instance.split_points
  let diff := diff.add_tokens gold_instance.tokens
  let diff ← addDiffEdges diff (diffFN gold_instance guess_instance) ":FN"
  let diff ← addDiffEdges diff (diffFP gold_instance guess_instance) ":FP"
  let diff ← addDiffEdges diff (diffMatches gold_instance guess_instance) ":Match"
  return diff

/-- What one `add_edge` call of `nlp_diff` appends, described from the
spec side: the original edge with its endpoints replaced by the tokens
registered at their indices, its type suffixed, and label, note,
description and render type unchanged. -/
def retaggedEdge (tm : Nat → Option Token) (suffix : String) (e : Edge) : Edge :=
  { start := (tm e.start.index).getD e.start
    end_ := (tm e.end_.index).getD e.end_
    label := e.label
    note := e.note
    edge_type := e.edge_type ++ suffix
    render_type := e.render_type
    description := e.description
    is_final := true }

/-- A bare token with only its position, for concrete test graphs. -/
def tok (i : Nat) : Token :=
  { index := i }

/-- A dependency edge between two bare tokens, for concrete test graphs. -/
def mkEdge (s e : Nat) (lab ty : String) : Edge :=
  { start := tok s, end_ := tok e, label := lab, edge_type := ty }

/-- The six-token instance of spec scenario 8. -/
def sixInst : NLPInstance :=
  NLPInstance.init [tok 0, tok 1, tok 2, tok 3, tok 4, tok 5] [] RenderType.single []

/-- Discriminator for the outcome of a fallible model operation: `true`
on a normal return, `false` on a raised error. -/
def exceptIsOk {α : Type} : Except String α → Bool
  | Except.ok _ => true
  | Except.error _ => false

/-- A concrete gold instance: two tokens and one A-labelled edge. -/
def goldW : NLPInstance :=
  NLPInstance.init [tok 0, tok 1] [mkEdge 0 1 "A" "dep"] RenderType.single []

/-- A concrete guess instance over the same tokens, with a B-labelled
edge instead. -/
def guessW : NLPInstance :=
  NLPInstance.init [tok 0, tok 1] [mkEdge 0 1 "B" "dep"] RenderType.single []

theorem edgeEq_iff_key (a b : Edge) : edgeEq a b = true ↔ edgeKey a = edgeKey b := by
  simp [edgeEq, tokenEq, edgeKey, Prod.ext_iff, and_assoc]

/-- C8: `covers` is a strict partial order on edge intervals: it is
transitive and asymmetric, and `covers a b` holds exactly when
`a.min < b.min ≤ b.max < a.max`. -/
theorem covers_strict_partial_order (a b c : Edge) :
    (a.covers b = true → b.covers c = true → a.covers c = true) ∧
    (a.covers b = true → b.covers a = false) ∧
    (a.covers b = true ↔
      (a.minIndex < b.minIndex ∧ b.minIndex ≤ b.maxIndex ∧ b.maxIndex < a.maxIndex)) := by
  refine ⟨?_, ?_, ?_⟩ <;>
    simp [Edge.covers, Edge.minIndex, Edge.maxIndex] <;> omega

/-- Witness for `covers_strict_partial_order` at the nested concrete
intervals [0,5] ⊃ [1,4] ⊃ [2,3]. -/
theorem covers_strict_partial_order_witness :
    Edge.covers (mkEdge 0 5 "a" "t") (mkEdge 2 3 "c" "t") = true ∧
    Edge.covers (mkEdge 1 4 "b" "t") (mkEdge 0 5 "a" "t") = false := by
  have h := covers_strict_partial_order (mkEdge 0 5 "a" "t") (mkEdge 1 4 "b" "t")
    (mkEdge 2 3 "c" "t")
  exact ⟨h.1 (by decide) (by decide), h.2.1 (by decide)⟩

/-- C9: `crosses` is symmetric and irreflexive, and holds exactly on
genuinely interleaved intervals. -/
theorem crosses_symmetric_irreflexive (a b : Edge) :
    (a.crosses b = b.crosses a) ∧ (a.crosses a = false) ∧
    (a.crosses b = true ↔
      ((a.minIndex < b.minIndex ∧ b.minIndex < a.maxIndex ∧ a.maxIndex < b.maxIndex) ∨
       (b.minIndex < a.minIndex ∧ a.minIndex < b.maxIndex ∧ b.maxIndex < a.maxIndex))) := by
  refine ⟨?_, ?_, ?_⟩
  · rw [Bool.eq_iff_iff]
    simp [Edge.crosses]
    exact or_comm
  · simp [Edge.crosses]
  · simp [Edge.crosses, and_assoc]

/-- Counterexample to C7: `overlaps` is not symmetric — the intervals
[1,3] and [0,2] intersect and neither contains the other, yet
`overlaps` answers `false` in one direction and `true` in the other. -/
theorem overlaps_not_symmetric_cex :
    Edge.overlaps (mkEdge 1 3 "A" "t") (mkEdge 0 2 "B" "t") = false ∧
    Edge.overlaps (mkEdge 0 2 "B" "t") (mkEdge 1 3 "A" "t") = true := by
  decide

/-- C7 amended: `overlaps a b` holds exactly when `a`'s range starts no
later than `b`'s, `b` starts no later than `a` ends, and `a` ends no
later than `b` ends (`a.min ≤ b.min ≤ a.max ≤ b.max`); the second
disjunct of the source is subsumed by the first, and the relation is
not symmetric. -/
theorem overlaps_characterization (a b : Edge) :
    a.overlaps b = true ↔
      (a.minIndex ≤ b.minIndex ∧ b.minIndex ≤ a.maxIndex ∧ a.maxIndex ≤ b.maxIndex) := by
  simp [Edge.overlaps, Edge.minIndex, Edge.maxIndex]
  omega

/-- C3: edge equality is decided by the five components (start, end,
label, type, note): two edges differing only in `description` or
`is_final` are equal, and inserting both into a Python set collapses
them to one element. -/
theorem edge_eq_ignores_description_is_final (st en : Token) (lab ty : String)
    (nt : Option String) (rt : Option EdgeRenderType) (d1 d2 : Option String)
    (f1 f2 : Bool) :
    edgeEq
      { start := st, end_ := en, label := lab, note := nt, edge_type := ty,
        render_type := rt, description := d1, is_final := f1 }
      { start := st, end_ := en, label := lab, note := nt, edge_type := ty,
        render_type := rt, description := d2, is_final := f2 } = true ∧
    pySetInsert
      (pySetInsert []
        { start := st, end_ := en, label := lab, note := nt, edge_type := ty,
          render_type := rt, description := d1, is_final := f1 })
      { start := st, end_ := en, label := lab, note := nt, edge_type := ty,
        render_type := rt, description := d2, is_final := f2 } =
      [{ start := st, end_ := en, label := lab, note := nt, edge_type := ty,
         render_type := rt, description := d1, is_final := f1 }] := by
  constructor
  · simp [edgeEq, tokenEq]
  · simp [pySetInsert, edgeEq, tokenEq]

/-- C10: edge hashing is consistent with edge equality: whatever the
underlying string hash, `edgeEq a b` forces `edgeHash a = edgeHash b`. -/
theorem edge_hash_consistent (hs : String → Int) (a b : Edge)
    (h : edgeEq a b = true) : edgeHash hs a = edgeHash hs b := by
  simp [edgeEq, tokenEq] at h
  obtain ⟨⟨⟨⟨h1, h2⟩, h3⟩, h4⟩, h5⟩ := h
  simp [edgeHash, tokenHash, h1, h2, h3, h4, h5]

/-- Witness for `edge_hash_consistent`: two concrete edges differing
only in description hash alike under the string-length hash. -/
theorem edge_hash_consistent_witness :
    edgeEq { mkEdge 0 1 "L" "dep" with description := some "x" }
      { mkEdge 0 1 "L" "dep" with description := some "y" } = true ∧
    edgeHash (fun s => (s.length : Int))
        { mkEdge 0 1 "L" "dep" with description := some "x" } =
      edgeHash (fun s => (s.length : Int))
        { mkEdge 0 1 "L" "dep" with description := some "y" } := by
  exact ⟨by decide, edge_hash_consistent _ _ _ (by decide)⟩

/-- C5: `merge` never merges anything — both the token-property loop
and the edge loop call a list attribute as a function, so the call
raises `TypeError` on every pair of instances. -/
theorem merge_always_raises (a b : NLPInstance) :
    a.merge b = Except.error "TypeError: list object is not callable" := by
  unfold NLPInstance.merge
  split <;> rfl

/-- C6: `add_token` with an explicit index that has no registered token
raises `KeyError` instead of creating one — the dict subscript fails
before the dead `if vertex is None` branch could run. -/
theorem add_token_missing_index_raises :
    (NLPInstance.init [] [] RenderType.single []).add_token (some 5) false =
      Except.error ("KeyError: " ++ toString (5 : Nat)) := rfl

/-- C4: `add_edge` appends exactly the fully-constructed edge when both
positions are registered, and fails with the missing-endpoint error —
returning no modified instance, so edges and tokens are unchanged and
no token is created — when either position is absent. -/
theorem add_edge_spec (inst : NLPInstance) (s e : Nat) (lab ty : String)
    (rt : Option EdgeRenderType) (d nt : Option String) (fin : Bool) :
    (∀ st en, inst.token_map s = some st → inst.token_map e = some en →
      inst.add_edge s e lab ty rt d nt fin =
        Except.ok { inst with edges := inst.edges ++
          [{ start := st, end_ := en, label := lab, note := nt, edge_type := ty,
             render_type := rt, description := d, is_final := fin }] }) ∧
    (inst.is_valid_edge s e = false →
      inst.add_edge s e lab ty rt d nt fin =
        Except.error ("Could not add edge: no token at positions " ++
          toString s ++ " and " ++ toString e ++ ".")) := by
  constructor
  · intro st en h1 h2
    simp [NLPInstance.add_edge, h1, h2]
  · intro h
    unfold NLPInstance.add_edge
    rcases hs : inst.token_map s with _ | st <;>
      rcases he : inst.token_map e with _ | en <;>
      simp_all [NLPInstance.is_valid_edge]

/-- Witness for `add_edge_spec`: on the six-token instance, the edge
0 → 99 is rejected with the missing-endpoint error and the edge 0 → 5
is appended. -/
theorem add_edge_spec_witness :
    sixInst.add_edge 0 99 "L" "dep" none none none true =
      Except.error ("Could not add edge: no token at positions " ++
        toString (0 : Nat) ++ " and " ++ toString (99 : Nat) ++ ".") ∧
    sixInst.add_edge 0 5 "L" "dep" none none none true =
      Except.ok { sixInst with edges := sixInst.edges ++
        [{ start := tok 0, end_ := tok 5, label := "L", note := none,
           edge_type := "dep", render_type := none, description := none,
           is_final := true }] } := by
  exact ⟨(add_edge_spec sixInst 0 99 "L" "dep" none none none true).2 (by decide),
    (add_edge_spec sixInst 0 5 "L" "dep" none none none true).1 (tok 0) (tok 5)
      (by decide) (by decide)⟩

theorem edgeEq_symmetric (a b : Edge) (h : edgeEq a b = true) : edgeEq b a = true :=
  (edgeEq_iff_key b a).mpr ((edgeEq_iff_key a b).mp h).symm

theorem edgeEq_transitive (a b c : Edge) (h1 : edgeEq a b = true)
    (h2 : edgeEq b c = true) : edgeEq a c = true :=
  (edgeEq_iff_key a c).mpr (((edgeEq_iff_key a b).mp h1).trans ((edgeEq_iff_key b c).mp h2))

theorem length_filter_add_length_filter_not (l : List Edge) (p : Edge → Bool) :
    (l.filter p).length + (l.filter fun x => !p x).length = l.length := by
  induction l with
  | nil => rfl
  | cons a l ih =>
      by_cases h : p a = true <;> simp [List.filter_cons, h, ← ih] <;> omega

theorem map_key_filter_any (A B : List Edge) :
    ((A.filter fun e => B.any (edgeEq e)).map edgeKey) =
      (A.map edgeKey).filter fun k => decide (k ∈ B.map edgeKey) := by
  induction A with
  | nil => rfl
  | cons a A ih =>
      by_cases h : edgeKey a ∈ B.map edgeKey
      · have h1 : B.any (edgeEq a) = true := by
          rw [List.any_eq_true]
          obtain ⟨x, hx, hk⟩ := List.mem_map.mp h
          exact ⟨x, hx, (edgeEq_iff_key a x).mpr hk.symm⟩
        have h2 : ∃ x ∈ B, edgeKey x = edgeKey a := by
          simpa [List.mem_map] using h
        simp [List.filter_cons, h1, h2, ih]
      · have h1 : B.any (edgeEq a) = false := by
          rw [Bool.eq_false_iff]
          intro hc
          rw [List.any_eq_true] at hc
          obtain ⟨x, hx, he⟩ := hc
          exact h (List.mem_map.mpr ⟨x, hx, ((edgeEq_iff_key a x).mp he).symm⟩)
        have h2 : ¬∃ x ∈ B, edgeKey x = edgeKey a := by
          simpa [List.mem_map] using h
        simp [List.filter_cons, h1, h2, ih]

theorem pyDedup_key_nodup (l : List Edge) : ((pyDedup l).map edgeKey).Nodup := by
  induction l with
  | nil => simp [pyDedup]
  | cons e es ih =>
      simp only [pyDedup, List.map_cons]
      rw [List.nodup_cons]
      constructor
      · intro hmem
        obtain ⟨x, hx, hk⟩ := List.mem_map.mp hmem
        obtain ⟨_, hne⟩ := List.mem_filter.mp hx
        rw [Bool.not_eq_true'] at hne
        exact absurd ((edgeEq_iff_key e x).mpr hk.symm) (by simp [hne])
      · exact ih.sublist ((List.filter_sublist _).map edgeKey)

theorem length_filter_any_eq_card (A B : List Edge) (hA : (A.map edgeKey).Nodup) :
    (A.filter fun e => B.any (edgeEq e)).length =
      ((A.map edgeKey).toFinset ∩ (B.map edgeKey).toFinset).card := by
  have h1 : (A.filter fun e => B.any (edgeEq e)).length =
      ((A.filter fun e => B.any (edgeEq e)).map edgeKey).length := by
    rw [List.length_map]
  rw [h1, map_key_filter_any]
  have h2 : ((A.map edgeKey).filter fun k => decide (k ∈ B.map edgeKey)).Nodup :=
    hA.filter _
  rw [← List.toFinset_card_of_nodup h2]
  congr 1
  ext k
  simp [List.mem_filter, List.mem_toFinset]

/-- C2: the three diff categories partition the gold and guess edge
sets: `|Match| + |FN|` is the size of the gold edge set and
`|Match| + |FP|` the size of the guess edge set, and no edge of one
category is `edgeEq`-equal to an edge of another. -/
theorem diff_partition (gold guess : NLPInstance) :
    (diffMatches gold guess).length + (diffFN gold guess).length =
      (gold.get_edges none).length ∧
    (diffMatches gold guess).length + (diffFP gold guess).length =
      (guess.get_edges none).length ∧
    ((diffFN gold guess).all fun e =>
      (diffFP gold guess).all fun x => !edgeEq e x) = true ∧
    ((diffFN gold guess).all fun e =>
      (diffMatches gold guess).all fun x => !edgeEq e x) = true ∧
    ((diffFP gold guess).all fun e =>
      (diffMatches gold guess).all fun x => !edgeEq e x) = true := by
  refine ⟨?_, ?_, ?_, ?_, ?_⟩
  · unfold diffMatches diffFN
    exact length_filter_add_length_filter_not _ _
  · have hg : ((gold.get_edges none).map edgeKey).Nodup := by
      unfold NLPInstance.get_edges
      exact pyDedup_key_nodup _
    have hh : ((guess.get_edges none).map edgeKey).Nodup := by
      unfold NLPInstance.get_edges
      exact pyDedup_key_nodup _
    have e1 := length_filter_any_eq_card (gold.get_edges none) (guess.get_edges none) hg
    have e2 := length_filter_any_eq_card (guess.get_edges none) (gold.get_edges none) hh
    have e3 := length_filter_add_length_filter_not (guess.get_edges none)
      (fun e => (gold.get_edges none).any (edgeEq e))
    unfold diffMatches diffFP
    rw [e1, Finset.inter_comm, ← e2]
    exact e3
  · simp only [List.all_eq_true, Bool.not_eq_true']
    intro e he x hx
    obtain ⟨heg, hen⟩ := List.mem_filter.mp he
    obtain ⟨hxh, hxn⟩ := List.mem_filter.mp hx
    rw [Bool.eq_false_iff]
    intro hc
    rw [Bool.not_eq_true', Bool.eq_false_iff] at hxn
    exact hxn (List.any_eq_true.mpr ⟨e, heg, edgeEq_symmetric e x hc⟩)
  · simp only [List.all_eq_true, Bool.not_eq_true']
    intro e he x hx
    obtain ⟨heg, hen⟩ := List.mem_filter.mp he
    obtain ⟨hxg, hxa⟩ := List.mem_filter.mp hx
    rw [Bool.eq_false_iff]
    intro hc
    obtain ⟨y, hy, hxy⟩ := List.any_eq_true.mp hxa
    rw [Bool.not_eq_true', Bool.eq_false_iff] at hen
    exact hen (List.any_eq_true.mpr ⟨y, hy, edgeEq_transitive e x y hc hxy⟩)
  · simp only [List.all_eq_true, Bool.not_eq_true']
    intro e he x hx
    obtain ⟨heh, hen⟩ := List.mem_filter.mp he
    obtain ⟨hxg, hxa⟩ := List.mem_filter.mp hx
    rw [Bool.eq_false_iff]
    intro hc
    rw [Bool.not_eq_true', Bool.eq_false_iff] at hen
    exact hen (List.any_eq_true.mpr ⟨x, hxg, hc⟩)

theorem addDiffEdges_ok (inst : NLPInstance) (es : List Edge) (suffix : String)
    (h : ∀ e ∈ es, (inst.token_map e.start.index).isSome = true ∧
      (inst.token_map e.end_.index).isSome = true) :
    addDiffEdges inst es suffix =
      Except.ok { inst with
        edges := inst.edges ++ es.map (retaggedEdge inst.token_map suffix) } := by
  induction es generalizing inst with
  | nil =>
      simp only [addDiffEdges, List.foldlM_nil, List.map_nil, List.append_nil]
      rfl
  | cons e es ih =>
      obtain ⟨h1, h2⟩ := h e (List.mem_cons_self e es)
      obtain ⟨st, hst⟩ := Option.isSome_iff_exists.mp h1
      obtain ⟨en, hen⟩ := Option.isSome_iff_exists.mp h2
      have hstep : inst.add_edge e.start.index e.end_.index e.label
          (e.edge_type ++ suffix) e.render_type e.description e.note true =
          Except.ok { inst with
            edges := inst.edges ++ [retaggedEdge inst.token_map suffix e] } := by
        simp [NLPInstance.add_edge, hst, hen, retaggedEdge]
      rw [addDiffEdges, List.foldlM_cons, hstep]
      have hrest := ih { inst with
          edges := inst.edges ++ [retaggedEdge inst.token_map suffix e] }
        (fun x hx => h x (List.mem_cons_of_mem e hx))
      rw [addDiffEdges] at hrest
      refine hrest.trans ?_
      simp [List.append_assoc]

/-- C1 (amended): when every gold and guess edge has both endpoint
indices registered in gold's token map, `nlp_diff` succeeds and returns
the instance carrying gold's tokens, map, render type and split points,
whose edge list is exactly the re-typed FN, FP and Match edges. -/
theorem nlp_diff_characterization (gold guess : NLPInstance)
    (h : ∀ e ∈ (gold.get_edges none ++ guess.get_edges none),
      (tokenMapAdd (fun _ => none) gold.tokens e.start.index).isSome = true ∧
      (tokenMapAdd (fun _ => none) gold.tokens e.end_.index).isSome = true) :
    nlp_diff gold guess =
      Except.ok
        { tokens := gold.tokens
          token_map := tokenMapAdd (fun _ => none) gold.tokens
          edges :=
            (diffFN gold guess).map
              (retaggedEdge (tokenMapAdd (fun _ => none) gold.tokens) ":FN") ++
            (diffFP gold guess).map
              (retaggedEdge (tokenMapAdd (fun _ => none) gold.tokens) ":FP") ++
            (diffMatches gold guess).map
              (retaggedEdge (tokenMapAdd (fun _ => none) gold.tokens) ":Match")
          render_type := gold.render_type
          split_points := gold.split_points } := by
  have hFN : ∀ e ∈ diffFN gold guess,
      (tokenMapAdd (fun _ => none) gold.tokens e.start.index).isSome = true ∧
      (tokenMapAdd (fun _ => none) gold.tokens e.end_.index).isSome = true :=
    fun e he => h e (List.mem_append_left _ (List.mem_filter.mp he).1)
  have hFP : ∀ e ∈ diffFP gold guess,
      (tokenMapAdd (fun _ => none) gold.tokens e.start.index).isSome = true ∧
      (tokenMapAdd (fun _ => none) gold.tokens e.end_.index).isSome = true :=
    fun e he => h e (List.mem_append_right _ (List.mem_filter.mp he).1)
  have hM : ∀ e ∈ diffMatches gold guess,
      (tokenMapAdd (fun _ => none) gold.tokens e.start.index).isSome = true ∧
      (tokenMapAdd (fun _ => none) gold.tokens e.end_.index).isSome = true :=
    fun e he => h e (List.mem_append_left _ (List.mem_filter.mp he).1)
  have s1 : addDiffEdges
      { tokens := gold.tokens
        token_map := tokenMapAdd (fun _ => none) gold.tokens
        edges := []
        render_type := gold.render_type
        split_points := gold.split_points } (diffFN gold guess) ":FN" =
      Except.ok
        { tokens := gold.tokens
          token_map := tokenMapAdd (fun _ => none) gold.tokens
          edges := (diffFN gold guess).map
            (retaggedEdge (tokenMapAdd (fun _ => none) gold.tokens) ":FN")
          render_type := gold.render_type
          split_points := gold.split_points } :=
    addDiffEdges_ok _ _ _ hFN
  have s2 : addDiffEdges
      { tokens := gold.tokens
        token_map := tokenMapAdd (fun _ => none) gold.tokens
        edges := (diffFN gold guess).map
          (retaggedEdge (tokenMapAdd (fun _ => none) gold.tokens) ":FN")
        render_type := gold.render_type
        split_points := gold.split_points } (diffFP gold guess) ":FP" =
      Except.ok
        { tokens := gold.tokens
          token_map := tokenMapAdd (fun _ => none) gold.tokens
          edges := (diffFN gold guess).map
              (retaggedEdge (tokenMapAdd (fun _ => none) gold.tokens) ":FN") ++
            (diffFP gold guess).map
              (retaggedEdge (tokenMapAdd (fun _ => none) gold.tokens) ":FP")
          render_type := gold.render_type
          split_points := gold.split_points } :=
    addDiffEdges_ok _ _ _ hFP
  have s3 : addDiffEdges
      { tokens := gold.tokens
        token_map := tokenMapAdd (fun _ => none) gold.tokens
        edges := (diffFN gold guess).map
            (retaggedEdge (tokenMapAdd (fun _ => none) gold.tokens) ":FN") ++
          (diffFP gold guess).map
            (retaggedEdge (tokenMapAdd (fun _ => none) gold.tokens) ":FP")
        render_type := gold.render_type
        split_points := gold.split_points } (diffMatches gold guess) ":Match" =
      Except.ok
        { tokens := gold.tokens
          token_map := tokenMapAdd (fun _ => none) gold.tokens
          edges := (diffFN gold guess).map
              (retaggedEdge (tokenMapAdd (fun _ => none) gold.tokens) ":FN") ++
            (diffFP gold guess).map
              (retaggedEdge (tokenMapAdd (fun _ => none) gold.tokens) ":FP") ++
            (diffMatches gold guess).map
              (retaggedEdge (tokenMapAdd (fun _ => none) gold.tokens) ":Match")
          render_type := gold.render_type
          split_points := gold.split_points } :=
    addDiffEdges_ok _ _ _ hM
  show (addDiffEdges
      { tokens := gold.tokens
        token_map := tokenMapAdd (fun _ => none) gold.tokens
        edges := []
        render_type := gold.render_type
        split_points := gold.split_points } (diffFN gold guess) ":FN" >>= fun d1 =>
    addDiffEdges d1 (diffFP gold guess) ":FP" >>= fun d2 =>
    addDiffEdges d2 (diffMatches gold guess) ":Match" >>= fun d3 => pure d3) = _
  rw [s1]
  show (addDiffEdges
      { tokens := gold.tokens
        token_map := tokenMapAdd (fun _ => none) gold.tokens
        edges := (diffFN gold guess).map
          (retaggedEdge (tokenMapAdd (fun _ => none) gold.tokens) ":FN")
        render_type := gold.render_type
        split_points := gold.split_points } (diffFP gold guess) ":FP" >>= fun d2 =>
    addDiffEdges d2 (diffMatches gold guess) ":Match" >>= fun d3 => pure d3) = _
  rw [s2]
  show (addDiffEdges
      { tokens := gold.tokens
        token_map := tokenMapAdd (fun _ => none) gold.tokens
        edges := (diffFN gold guess).map
            (retaggedEdge (tokenMapAdd (fun _ => none) gold.tokens) ":FN") ++
          (diffFP gold guess).map
            (retaggedEdge (tokenMapAdd (fun _ => none) gold.tokens) ":FP")
        render_type := gold.render_type
        split_points := gold.split_points } (diffMatches gold guess) ":Match" >>=
      fun d3 => pure d3) = _
  rw [s3]
  rfl

/-- Witness for the amended C1 claim at concrete two-token gold and
guess instances that differ in one edge label. -/
theorem nlp_diff_characterization_witness :
    nlp_diff goldW guessW =
      Except.ok
        { tokens := goldW.tokens
          token_map := tokenMapAdd (fun _ => none) goldW.tokens
          edges :=
            (diffFN goldW guessW).map
              (retaggedEdge (tokenMapAdd (fun _ => none) goldW.tokens) ":FN") ++
            (diffFP goldW guessW).map
              (retaggedEdge (tokenMapAdd (fun _ => none) goldW.tokens) ":FP") ++
            (diffMatches goldW guessW).map
              (retaggedEdge (tokenMapAdd (fun _ => none) goldW.tokens) ":Match")
          render_type := goldW.render_type
          split_points := goldW.split_points } :=
  nlp_diff_characterization goldW guessW (by decide)

theorem nlp_diff_out_of_range_cex :
    exceptIsOk (nlp_diff (NLPInstance.init [tok 0] [] RenderType.single [])
      (NLPInstance.init [tok 0, tok 1] [mkEdge 0 1 "A" "dep"] RenderType.single [])) =
      false := by
  decide
